import Mathlib

/-!
Shallow embedding of `python/mxnet/gluon/nn/basic_layers.py` (Gluon basic
neural-network layers): Sequential, HybridSequential, Dense, Activation,
Dropout, BatchNorm, LeakyReLU, Embedding and Flatten, together with the small
slice of the surrounding infrastructure (Parameter records, the operator
namespace `F`, and an eager tensor backend) that the layers' contracts refer
to.  Pure functions of the source become Lean functions; the Python
constructors (`__init__`) become `init` functions building the layer records;
the `hybrid_forward` methods become functions over an explicit operator
namespace record.  Definitions that translate code living outside this file
(the Block/Parameter base classes and the tensor backend) carry a doc comment
starting with `Modelled from the spec:`.
-/

namespace GluonNN

/-- Gradient-tracking mode of a `Parameter` (the `grad_req` keyword of
`ParameterDict.get`): `write` is trainable, `null` is frozen / no-grad. -/
inductive GradReq where
  | write
  | null
deriving DecidableEq, BEq

/-- A named tensor slot as created by `ParameterDict.get`.  The shape uses the
`0` sentinel for an unknown (deferrable) dimension, as the spec's design notes
record for the source.  The `init` field keeps the initializer's name; data is
not stored because no claim touches materialized values. -/
structure Parameter where
  name : String
  shape : List Nat
  grad_req : GradReq
  allow_deferred_init : Bool
  init : String
deriving DecidableEq

/-- Modelled from the spec: a Parameter is marked deferred exactly when some
dimension is still unknown (the `0` sentinel) and `allow_deferred_init` is
true (spec §3, Parameter lifecycle); the marking itself lives in the
`Parameter` base class, which is not part of this source file. -/
def Parameter.isDeferred (p : Parameter) : Bool :=
  p.shape.contains 0 && p.allow_deferred_init

/-- Modelled from the spec: the gradient engine consumes the ordered list of
trainable Parameters (`gradient_mode = trainable`) obtained by ParameterDict
traversal (spec §6); the traversal lives in the parameter module, not in this
source file. -/
def trainableParams (ps : List Parameter) : List Parameter :=
  ps.filter (fun p => p.grad_req == GradReq.write)

/-- Modelled from the spec: backend tensors are dense row-major arrays; a
tensor is its shape together with its elements in row-major order.  Rational
entries stand for the backend's numeric values. -/
structure Tensor where
  shape : List Nat
  data : List ℚ
deriving DecidableEq

/-- Row-major rank of a multi-index inside a shape: the position of the
element in the flat row-major data order (spec: "row-major flattening"). -/
def rowMajorIndex : List Nat → List Nat → Nat
  | _ :: ds, i :: is => i * ds.prod + rowMajorIndex ds is
  | _, _ => 0

/-- Element of a tensor at a multi-index, through the row-major layout. -/
def Tensor.get (t : Tensor) (idx : List Nat) : ℚ :=
  t.data.getD (rowMajorIndex t.shape idx) 0

/-- Errors of the layer contracts (spec §7 taxonomy; only the members that
the claims under verification exercise are represented). -/
inductive LayerError where
  | rankError
  | typeError
deriving DecidableEq

/-- Keyword record Sequential's BatchNorm builds in `__init__` and forwards to
`F.BatchNorm` (`self._kwargs` in the source): note that the source computes
`fix_gamma` as `not center`. -/
structure BatchNormKwargs where
  axis : Int
  eps : ℚ
  momentum : ℚ
  fix_gamma : Bool
deriving DecidableEq

/-- Keyword record Embedding builds in `__init__` (`self._kwargs`). -/
structure EmbeddingKwargs where
  input_dim : Nat
  output_dim : Nat
  dtype : String
deriving DecidableEq

/-- The abstract operator namespace `F` that every `hybrid_forward` receives:
a record of the named backend operations the layers of this file invoke
(spec §6: a capability set implementable by an eager and a symbolic
backend). -/
structure OpNamespace where
  FullyConnected : Tensor → Tensor → Option Tensor → Nat → Except LayerError Tensor
  Activation : Tensor → String → Tensor
  Dropout : Tensor → ℚ → Tensor
  BatchNorm : Tensor → Tensor → Tensor → Tensor → Tensor → BatchNormKwargs → Tensor
  LeakyReLU : Tensor → String → ℚ → Tensor
  Embedding : Tensor → Tensor → EmbeddingKwargs → Tensor

/-- Dot product of row `i` of `x` with row `j` of `w`, both rows of length
`k`, read from the row-major data. -/
def dotAt (x w : Tensor) (k i j : Nat) : ℚ :=
  ((List.range k).map
    (fun t => x.data.getD (i * k + t) 0 * w.data.getD (j * k + t) 0)).sum

/-- The bias contribution at output column `j`: `0` when no bias is given. -/
def biasAt (b : Option Tensor) (j : Nat) : ℚ :=
  match b with
  | none => 0
  | some bv => bv.data.getD j 0

/-- Result tensor of the eager fully-connected operator on a rank-2 input of
shape `[n, k]`: shape `[n, m]`, entry `(i, j)` equal to
`dot(x_i, w_j) + bias_j`. -/
def fcT (x w : Tensor) (b : Option Tensor) (n k m : Nat) : Tensor :=
  { shape := [n, m]
    data := List.ofFn (fun p : Fin (n * m) =>
      dotAt x w k (p.val / m) (p.val % m) + biasAt b (p.val % m)) }

/-- Modelled from the spec: the eager backend's `FullyConnected` operator
(spec §4.6, Dense row): `input · weight^T + bias`, requiring a rank-2 input
and failing with RankError otherwise.  The operator itself lives in the
tensor backend, not in this source file. -/
def fcEager (x w : Tensor) (b : Option Tensor) (num_hidden : Nat) :
    Except LayerError Tensor :=
  match x.shape with
  | [n, k] => Except.ok (fcT x w b n k num_hidden)
  | _ => Except.error LayerError.rankError

/-- Element-wise map over a tensor, preserving its shape. -/
def mapT (f : ℚ → ℚ) (t : Tensor) : Tensor :=
  { shape := t.shape, data := t.data.map f }

/-- Modelled from the spec: the backend tensor method `reshape((0, -1))` used
by `Flatten.hybrid_forward` — `0` copies the corresponding input dimension
and `-1` collapses the remaining dimensions into one, leaving the row-major
data order unchanged. -/
def Tensor.reshape0m1 (t : Tensor) : Tensor :=
  { shape := [t.shape.headD 0, t.shape.tail.prod], data := t.data }

/-- Modelled from the spec: the eager (immediate-tensor) backend bound to the
operator namespace.  `table` is the backend's table of named element-wise
activation functions (spec §4.6: "element-wise, named function applied
uniformly").  `Dropout` is its inference-mode semantics (identity; the
training/inference mode is an external execution-context input, spec §6).
The exact batch-norm formula is explicitly outside the spec's scope (§1
non-goals), so the `BatchNorm` field is a placeholder no claim below depends
on.  `Embedding` is the spec's row lookup `output[..., :] = weight[index[...], :]`. -/
def ndarray (table : String → ℚ → ℚ) : OpNamespace :=
  { FullyConnected := fcEager
    Activation := fun x act_type => mapT (table act_type) x
    Dropout := fun x _ => x
    BatchNorm := fun x _ _ _ _ _ => x
    LeakyReLU := fun x _ slope => mapT (fun q => if 0 ≤ q then q else slope * q) x
    Embedding := fun x weight kw =>
      { shape := x.shape ++ [kw.output_dim]
        data := x.data.flatMap (fun q => (List.range kw.output_dim).map
          (fun j => weight.data.getD (q.num.toNat * kw.output_dim + j) 0)) } }

/-- `Sequential`: eager container with an ordered children list.  A child is
abstracted as what invoking it does: a function on tensors. -/
structure Sequential where
  _children : List (Tensor → Tensor)

/-- `Sequential.__init__`: empty children list. -/
def Sequential.init : Sequential := { _children := [] }

/-- `Sequential.add`, which delegates to `register_child`: appends the block,
so insertion order is registration order. -/
def Sequential.add (s : Sequential) (block : Tensor → Tensor) : Sequential :=
  { _children := s._children ++ [block] }

/-- `Sequential.forward`: `for block in self._children: x = block(x)`. -/
def Sequential.forward (s : Sequential) (x : Tensor) : Tensor :=
  s._children.foldl (fun acc block => block acc) x

/-- `HybridSequential`: hybrid container with an ordered children list. -/
structure HybridSequential where
  _children : List (Tensor → Tensor)

/-- `HybridSequential.__init__`: empty children list. -/
def HybridSequential.init : HybridSequential := { _children := [] }

/-- `HybridSequential.add`: appends the block. -/
def HybridSequential.add (s : HybridSequential) (block : Tensor → Tensor) :
    HybridSequential :=
  { _children := s._children ++ [block] }

/-- `HybridSequential.hybrid_forward(self, F, x)`: the same loop as
`Sequential.forward`; the body never mentions `F`. -/
def HybridSequential.hybrid_forward (F : OpNamespace) (s : HybridSequential)
    (x : Tensor) : Tensor :=
  s._children.foldl (fun acc block => block acc) x

/-- `Activation` layer: stores the activation name (`self._act_type`). -/
structure Activation where
  _act_type : String
deriving DecidableEq

/-- `Activation.__init__`. -/
def Activation.init (activation : String) : Activation :=
  { _act_type := activation }

/-- `Activation.hybrid_forward`: `F.Activation(x, act_type=self._act_type)`. -/
def Activation.hybrid_forward (F : OpNamespace) (a : Activation) (x : Tensor) :
    Tensor :=
  F.Activation x a._act_type

/-- `Dense` layer record: units, declared in_units, weight Parameter,
optional bias Parameter, optional activation sub-layer. -/
structure Dense where
  _units : Nat
  _in_units : Nat
  weight : Parameter
  bias : Option Parameter
  act : Option Activation
deriving DecidableEq

/-- `Dense.__init__(units, activation=None, use_bias=True, ..., in_units=0)`:
registers `weight` with shape `(units, in_units)` and
`allow_deferred_init=True`; registers `bias` of shape `(units,)` only when
`use_bias`; wraps the activation name in an `Activation` sub-layer when one
is given (`params.get` defaults `grad_req` to write). -/
def Dense.init (units : Nat) (activation : Option String) (use_bias : Bool)
    (weight_initializer bias_initializer : String) (in_units : Nat) : Dense :=
  { _units := units
    _in_units := in_units
    weight := { name := "weight", shape := [units, in_units],
                grad_req := GradReq.write, allow_deferred_init := true,
                init := weight_initializer }
    bias := if use_bias then
        some { name := "bias", shape := [units], grad_req := GradReq.write,
               allow_deferred_init := true, init := bias_initializer }
      else none
    act := activation.map Activation.init }

/-- `Dense.hybrid_forward(self, F, x, weight, bias=None)`: calls
`F.FullyConnected` (with `no_bias=True` when `bias is None`), then applies
the activation sub-layer when present. -/
def Dense.hybrid_forward (F : OpNamespace) (d : Dense) (x weight : Tensor)
    (bias : Option Tensor) : Except LayerError Tensor := do
  let act ← match bias with
    | none => F.FullyConnected x weight none d._units
    | some b => F.FullyConnected x weight (some b) d._units
  match d.act with
  | none => pure act
  | some a => pure (Activation.hybrid_forward F a act)

/-- Modelled from the spec: the deferred-shape resolution for Dense performed
by the Block/Parameter base classes (not in this source file) — an unknown
(`0`) `in_units` dimension of the weight's declared `(units, in_units)` shape
is filled from the input's last dimension on the first call (spec §4.6,
Dense row; §4.1 `resolve_shape`). -/
def Dense.resolveWeightShape (d : Dense) (inputShape : List Nat) : List Nat :=
  match d.weight.shape with
  | [u, iu] => [u, if iu = 0 then inputShape.getLastD 0 else iu]
  | s => s

/-- `Dropout` layer: stores the rate (`self._rate`). -/
structure Dropout where
  _rate : ℚ
deriving DecidableEq

/-- `Dropout.__init__(rate)`: stores the rate unconditionally.  The body
contains no validation and no failure path, so the (failure-capable)
constructor always returns `ok`. -/
def Dropout.init (rate : ℚ) : Except LayerError Dropout :=
  Except.ok { _rate := rate }

/-- `Dropout.hybrid_forward`: `F.Dropout(x, p=self._rate)`. -/
def Dropout.hybrid_forward (F : OpNamespace) (d : Dropout) (x : Tensor) :
    Tensor :=
  F.Dropout x d._rate

/-- `BatchNorm` layer record: the kwargs dict sent to the backend op and the
four Parameters, plus the layer's ParameterDict contents in registration
order. -/
structure BatchNorm where
  _kwargs : BatchNormKwargs
  gamma : Parameter
  beta : Parameter
  running_mean : Parameter
  running_var : Parameter
  params : List Parameter
deriving DecidableEq

/-- `BatchNorm.__init__(axis=1, momentum=0.9, epsilon=1e-3, center=True,
scale=True, ..., in_channels=0)`: builds
`self._kwargs = dict(axis, eps, momentum, fix_gamma=not center)` and
registers `gamma` (`grad_req` write iff `scale`), `beta` (write iff
`center`), `running_mean` and `running_var` (both `grad_req='null'`), all of
shape `(in_channels,)` with `allow_deferred_init=True`. -/
def BatchNorm.init (axis : Int) (momentum epsilon : ℚ) (center scale : Bool)
    (beta_initializer gamma_initializer : String)
    (running_mean_initializer running_variance_initializer : String)
    (in_channels : Nat) : BatchNorm :=
  let g : Parameter :=
    { name := "gamma", shape := [in_channels],
      grad_req := if scale then GradReq.write else GradReq.null,
      allow_deferred_init := true, init := gamma_initializer }
  let b : Parameter :=
    { name := "beta", shape := [in_channels],
      grad_req := if center then GradReq.write else GradReq.null,
      allow_deferred_init := true, init := beta_initializer }
  let rm : Parameter :=
    { name := "running_mean", shape := [in_channels],
      grad_req := GradReq.null, allow_deferred_init := true,
      init := running_mean_initializer }
  let rv : Parameter :=
    { name := "running_var", shape := [in_channels],
      grad_req := GradReq.null, allow_deferred_init := true,
      init := running_variance_initializer }
  let kw : BatchNormKwargs :=
    { axis := axis, eps := epsilon, momentum := momentum, fix_gamma := !center }
  { _kwargs := kw
    gamma := g
    beta := b
    running_mean := rm
    running_var := rv
    params := [g, b, rm, rv] }

/-- `BatchNorm.hybrid_forward`: `F.BatchNorm(x, gamma, beta, running_mean,
running_var, **self._kwargs)`. -/
def BatchNorm.hybrid_forward (F : OpNamespace) (bn : BatchNorm)
    (x gamma beta running_mean running_var : Tensor) : Tensor :=
  F.BatchNorm x gamma beta running_mean running_var bn._kwargs

/-- `LeakyReLU` layer: stores the slope (`self._alpha`). -/
structure LeakyReLU where
  _alpha : ℚ
deriving DecidableEq

/-- `LeakyReLU.__init__(alpha)`. -/
def LeakyReLU.init (alpha : ℚ) : LeakyReLU :=
  { _alpha := alpha }

/-- `LeakyReLU.hybrid_forward`:
`F.LeakyReLU(x, act_type='leaky', slope=self._alpha)`. -/
def LeakyReLU.hybrid_forward (F : OpNamespace) (l : LeakyReLU) (x : Tensor) :
    Tensor :=
  F.LeakyReLU x "leaky" l._alpha

/-- `Embedding` layer record: the kwargs dict and the weight Parameter. -/
structure Embedding where
  _kwargs : EmbeddingKwargs
  weight : Parameter
deriving DecidableEq

/-- `Embedding.__init__(input_dim, output_dim, dtype='float32', ...)`:
builds `self._kwargs` and registers `weight` with shape
`(input_dim, output_dim)` and `allow_deferred_init=True` (`params.get`
defaults `grad_req` to write). -/
def Embedding.init (input_dim output_dim : Nat) (dtype : String)
    (weight_initializer : String) : Embedding :=
  { _kwargs := { input_dim := input_dim, output_dim := output_dim,
                 dtype := dtype }
    weight := { name := "weight", shape := [input_dim, output_dim],
                grad_req := GradReq.write, allow_deferred_init := true,
                init := weight_initializer } }

/-- `Embedding.hybrid_forward`: `F.Embedding(x, weight, **self._kwargs)`. -/
def Embedding.hybrid_forward (F : OpNamespace) (e : Embedding)
    (x weight : Tensor) : Tensor :=
  F.Embedding x weight e._kwargs

/-- `Flatten` layer: no attributes. -/
structure Flatten

/-- `Flatten.__init__`. -/
def Flatten.init : Flatten := Flatten.mk

/-- `Flatten.hybrid_forward(self, F, x)`: `x.reshape((0, -1))` — a tensor
method call; `F` never appears in the body. -/
def Flatten.hybrid_forward (F : OpNamespace) (fl : Flatten) (x : Tensor) :
    Tensor :=
  x.reshape0m1

/-- The activation step of Dense's forward at element level: the named
element-wise function of the activation sub-layer when one is present,
the identity otherwise. -/
def denseAct (d : Dense) (table : String → ℚ → ℚ) (q : ℚ) : ℚ :=
  match d.act with
  | none => q
  | some a => table a._act_type q

/-- State-passing form of `Sequential.forward`: the method body only reads
`self._children` and assigns no attribute of `self`, so the state out is the
state in. -/
def Sequential.forwardS (s : Sequential) (x : Tensor) : Sequential × Tensor :=
  (s, Sequential.forward s x)

/-- State-passing form of `HybridSequential.hybrid_forward` (no attribute of
`self` is assigned by the body). -/
def HybridSequential.forwardS (F : OpNamespace) (s : HybridSequential)
    (x : Tensor) : HybridSequential × Tensor :=
  (s, HybridSequential.hybrid_forward F s x)

/-- State-passing form of `Dense.hybrid_forward` (no attribute of `self` is
assigned by the body). -/
def Dense.forwardS (F : OpNamespace) (d : Dense) (x weight : Tensor)
    (bias : Option Tensor) : Dense × Except LayerError Tensor :=
  (d, Dense.hybrid_forward F d x weight bias)

/-- State-passing form of `Activation.hybrid_forward`. -/
def Activation.forwardS (F : OpNamespace) (a : Activation) (x : Tensor) :
    Activation × Tensor :=
  (a, Activation.hybrid_forward F a x)

/-- State-passing form of `Dropout.hybrid_forward`. -/
def Dropout.forwardS (F : OpNamespace) (dp : Dropout) (x : Tensor) :
    Dropout × Tensor :=
  (dp, Dropout.hybrid_forward F dp x)

/-- State-passing form of `BatchNorm.hybrid_forward`. -/
def BatchNorm.forwardS (F : OpNamespace) (bn : BatchNorm)
    (x gamma beta running_mean running_var : Tensor) : BatchNorm × Tensor :=
  (bn, BatchNorm.hybrid_forward F bn x gamma beta running_mean running_var)

/-- State-passing form of `LeakyReLU.hybrid_forward`. -/
def LeakyReLU.forwardS (F : OpNamespace) (l : LeakyReLU) (x : Tensor) :
    LeakyReLU × Tensor :=
  (l, LeakyReLU.hybrid_forward F l x)

/-- State-passing form of `Embedding.hybrid_forward`. -/
def Embedding.forwardS (F : OpNamespace) (e : Embedding) (x weight : Tensor) :
    Embedding × Tensor :=
  (e, Embedding.hybrid_forward F e x weight)

/-- State-passing form of `Flatten.hybrid_forward`. -/
def Flatten.forwardS (F : OpNamespace) (fl : Flatten) (x : Tensor) :
    Flatten × Tensor :=
  (fl, Flatten.hybrid_forward F fl x)

/-- Concrete 2x2x3 tensor with entries 0..11 in row-major order, used to
instantiate theorems with hypotheses. -/
def tEx : Tensor :=
  { shape := [2, 2, 3], data := [0, 1, 2, 3, 4, 5, 6, 7, 8, 9, 10, 11] }

/-- Concrete 1x2 input for the Dense layer. -/
def xEx : Tensor := { shape := [1, 2], data := [1, 2] }

/-- Concrete 2x2 weight for the Dense layer. -/
def wEx : Tensor := { shape := [2, 2], data := [3, 4, 5, 6] }

/-- Concrete bias vector of length 2 for the Dense layer. -/
def bEx : Tensor := { shape := [2], data := [10, 20] }

/-- Concrete Dense layer: 2 units, no activation, bias on, in_units 2. -/
def dEx : Dense := Dense.init 2 none true "uniform" "zeros" 2

theorem rowMajorIndex_cons (d : Nat) (ds : List Nat) (i : Nat)
    (is : List Nat) :
    rowMajorIndex (d :: ds) (i :: is) = i * ds.prod + rowMajorIndex ds is :=
  rfl

theorem rowMajorIndex_nil_right (s : List Nat) : rowMajorIndex s [] = 0 := by
  cases s <;> rfl

theorem rowMajorIndex_pair (n m i j : Nat) :
    rowMajorIndex [n, m] [i, j] = i * m + j := by
  rw [rowMajorIndex_cons, rowMajorIndex_cons, rowMajorIndex_nil_right]
  simp

theorem mul_index_lt {n m i j : Nat} (hi : i < n) (hj : j < m) :
    i * m + j < n * m :=
  calc i * m + j < i * m + m := Nat.add_lt_add_left hj _
  _ = (i + 1) * m := (Nat.succ_mul i m).symm
  _ ≤ n * m := Nat.mul_le_mul_right m hi

theorem fcT_shape (x w : Tensor) (b : Option Tensor) (n k m : Nat) :
    (fcT x w b n k m).shape = [n, m] := rfl

theorem fcT_get (x w : Tensor) (b : Option Tensor) (n k m i j : Nat)
    (hi : i < n) (hj : j < m) :
    (fcT x w b n k m).get [i, j] = dotAt x w k i j + biasAt b j := by
  have hm : 0 < m := Nat.lt_of_le_of_lt (Nat.zero_le j) hj
  have hlt : i * m + j < n * m := mul_index_lt hi hj
  have hdiv : (i * m + j) / m = i := by
    have e : i * m + j = j + m * i := by ring
    rw [e, Nat.add_mul_div_left j i hm, Nat.div_eq_of_lt hj, Nat.zero_add]
  have hmod : (i * m + j) % m = j := by
    have e : i * m + j = j + m * i := by ring
    rw [e, Nat.add_mul_mod_self_left, Nat.mod_eq_of_lt hj]
  simp only [Tensor.get, fcT]
  rw [rowMajorIndex_pair]
  rw [List.getD_eq_getElem _ _ (by simpa [List.length_ofFn] using hlt)]
  rw [List.getElem_ofFn]
  simp [hdiv, hmod]

theorem mapT_shape (f : ℚ → ℚ) (t : Tensor) : (mapT f t).shape = t.shape :=
  rfl

theorem mapT_get (f : ℚ → ℚ) (t : Tensor) (idx : List Nat)
    (h : rowMajorIndex t.shape idx < t.data.length) :
    (mapT f t).get idx = f (t.get idx) := by
  simp only [mapT, Tensor.get]
  rw [List.getD_eq_getElem _ _ (by simpa using h),
    List.getD_eq_getElem _ _ h, List.getElem_map]

theorem fcEager_rank_err (s : List Nat) (xd : List ℚ) (w : Tensor)
    (b : Option Tensor) (m : Nat) (h : s.length ≠ 2) :
    fcEager { shape := s, data := xd } w b m
      = Except.error LayerError.rankError := by
  rcases s with _ | ⟨a1, _ | ⟨a2, _ | ⟨a3, rest⟩⟩⟩
  · rfl
  · rfl
  · simp at h
  · rfl

/-- C6: Flatten preserves the first (batch) dimension and collapses the
remaining dimensions into one: on an input of shape N :: ds the output has
shape [N, prod ds], and the output element at (n, rowMajorIndex ds idx)
equals the input element at multi-index n :: idx — row-major flattening of
dimensions 1..k, with the data order untouched. -/
theorem flatten_row_major (F : OpNamespace) (fl : Flatten) (t : Tensor)
    (N : Nat) (ds : List Nat) (h : t.shape = N :: ds) :
    ((Flatten.hybrid_forward F fl t).shape = [N, ds.prod])
  ∧ (∀ (n : Nat) (idx : List Nat),
      (Flatten.hybrid_forward F fl t).get [n, rowMajorIndex ds idx]
        = t.get (n :: idx)) := by
  constructor
  · simp [Flatten.hybrid_forward, Tensor.reshape0m1, h]
  · intro n idx
    simp [Flatten.hybrid_forward, Tensor.reshape0m1, Tensor.get, h,
      rowMajorIndex_pair, rowMajorIndex_cons, rowMajorIndex_nil_right]

/-- C6 witness: the flatten theorem applied to a concrete 2x2x3 tensor,
together with one fully evaluated element: flat position (1, 5) holds the
input element at (1, 1, 2), namely 11. -/
theorem flatten_row_major_witness :
    ((Flatten.hybrid_forward (ndarray (fun _ q => q)) Flatten.init tEx).shape
       = [2, List.prod [2, 3]])
  ∧ (∀ (n : Nat) (idx : List Nat),
      (Flatten.hybrid_forward (ndarray (fun _ q => q)) Flatten.init tEx).get
        [n, rowMajorIndex [2, 3] idx] = tEx.get (n :: idx))
  ∧ ((Flatten.hybrid_forward (ndarray (fun _ q => q)) Flatten.init tEx).get
       [1, 5] = 11) := by
  have h := flatten_row_major (ndarray (fun _ q => q)) Flatten.init tEx 2
    [2, 3] rfl
  exact ⟨h.1, h.2, by decide⟩

/-- C7: against the eager backend, Dense.hybrid_forward fails with RankError
whenever the input rank is not 2; on a rank-2 input of shape (n, k) it
returns the tensor of shape (n, units) whose (i, j) entry is
activation(dot(x_i, w_j) + bias_j), where the bias contribution is 0 when no
bias is passed and the activation is the identity when none was specified;
and construction registers a bias Parameter exactly when use_bias is true
and an activation sub-layer exactly when an activation was specified. -/
theorem dense_forward_spec (table : String → ℚ → ℚ) (d : Dense)
    (x w : Tensor) (b : Option Tensor) :
    (x.shape.length ≠ 2 →
       Dense.hybrid_forward (ndarray table) d x w b
         = Except.error LayerError.rankError)
  ∧ (∀ n k : Nat, x.shape = [n, k] →
       ∃ t : Tensor,
         Dense.hybrid_forward (ndarray table) d x w b = Except.ok t
         ∧ t.shape = [n, d._units]
         ∧ ∀ i j : Nat, i < n → j < d._units →
             t.get [i, j] = denseAct d table (dotAt x w k i j + biasAt b j))
  ∧ (∀ (units : Nat) (activation : Option String) (use_bias : Bool)
        (wi bi : String) (in_units : Nat),
        ((Dense.init units activation use_bias wi bi in_units).bias.isSome
           = use_bias)
      ∧ ((Dense.init units activation use_bias wi bi in_units).act.isSome
           = activation.isSome)) := by
  refine ⟨?_, ?_, ?_⟩
  · intro hlen
    obtain ⟨s, xd⟩ := x
    have hfc : fcEager { shape := s, data := xd } w b d._units
        = Except.error LayerError.rankError :=
      fcEager_rank_err s xd w b d._units (by simpa using hlen)
    rcases b with _ | bb <;>
      simp [Dense.hybrid_forward, ndarray, hfc, Bind.bind, Except.bind]
  · intro n k hs2
    obtain ⟨s, xd⟩ := x
    have hs3 : s = [n, k] := hs2
    subst hs3
    rcases hact : d.act with _ | a
    · refine ⟨fcT { shape := [n, k], data := xd } w b n k d._units, ?_, rfl,
        ?_⟩
      · rcases b with _ | bb <;>
          simp [Dense.hybrid_forward, ndarray, fcEager, hact, Bind.bind,
            Except.bind, pure, Except.pure]
      · intro i j hi hj
        rw [fcT_get _ _ _ _ _ _ _ _ hi hj]
        simp [denseAct, hact]
    · refine ⟨mapT (table a._act_type)
        (fcT { shape := [n, k], data := xd } w b n k d._units), ?_, rfl, ?_⟩
      · rcases b with _ | bb <;>
          simp [Dense.hybrid_forward, ndarray, fcEager, hact,
            Activation.hybrid_forward, Bind.bind, Except.bind, pure,
            Except.pure]
      · intro i j hi hj
        rw [mapT_get _ _ _ (by
          rw [fcT_shape, rowMajorIndex_pair]
          simpa [fcT, List.length_ofFn] using mul_index_lt hi hj)]
        rw [fcT_get _ _ _ _ _ _ _ _ hi hj]
        simp [denseAct, hact]
  · intro units activation use_bias wi bi in_units
    constructor
    · rcases use_bias <;> simp [Dense.init]
    · rcases activation with _ | aa <;> simp [Dense.init]

/-- C7 witness: the Dense forward theorem at a concrete rank-2 input — x of
shape (1, 2) with rows (1, 2), weight rows (3, 4) and (5, 6), bias
(10, 20) — together with one fully evaluated entry: output (0, 0) is
1*3 + 2*4 + 10 = 21. -/
theorem dense_forward_spec_witness :
    (∃ t : Tensor,
       Dense.hybrid_forward (ndarray (fun _ q => q)) dEx xEx wEx (some bEx)
         = Except.ok t
       ∧ t.shape = [1, dEx._units]
       ∧ ∀ i j : Nat, i < 1 → j < dEx._units →
           t.get [i, j]
             = denseAct dEx (fun _ q => q)
                 (dotAt xEx wEx 2 i j + biasAt (some bEx) j))
  ∧ (denseAct dEx (fun _ q => q)
       (dotAt xEx wEx 2 0 0 + biasAt (some bEx) 0) = 21) :=
  ⟨(dense_forward_spec (fun _ q => q) dEx xEx wEx (some bEx)).2.1 1 2 rfl,
   by norm_num [denseAct, dEx, Dense.init, dotAt, biasAt, xEx, wEx, bEx,
     List.range_succ]⟩

/-- C1: for a Sequential (and likewise HybridSequential) container with
registered children [A, B, C] and any input x, invoking the container equals
the right-to-left-nested composition C(B(A(x))) exactly; in general the
forward folds the input through each child in registration order, expressed
by the chaining law over concatenation of registration sequences. -/
theorem sequential_composition_law (A B C : Tensor → Tensor) (x : Tensor) :
    (Sequential.forward (((Sequential.init.add A).add B).add C) x = C (B (A x)))
  ∧ (∀ F : OpNamespace,
      HybridSequential.hybrid_forward F
        (((HybridSequential.init.add A).add B).add C) x = C (B (A x)))
  ∧ (∀ (s : Sequential) (blocks : List (Tensor → Tensor)) (y : Tensor),
      Sequential.forward { _children := s._children ++ blocks } y
        = Sequential.forward { _children := blocks } (Sequential.forward s y)) := by
  refine ⟨rfl, fun F => rfl, fun s blocks y => ?_⟩
  simp [Sequential.forward, List.foldl_append]

/-- C9: Sequential.forward and HybridSequential.hybrid_forward are the same
fold — for the same ordered list of children and the same input both produce
identical output — and the hybrid result does not depend on the
operator-namespace argument F. -/
theorem hybrid_sequential_same_fold (F F' : OpNamespace)
    (blocks : List (Tensor → Tensor)) (x : Tensor) :
    (HybridSequential.hybrid_forward F { _children := blocks } x
       = Sequential.forward { _children := blocks } x)
  ∧ (HybridSequential.hybrid_forward F { _children := blocks } x
       = HybridSequential.hybrid_forward F' { _children := blocks } x) :=
  ⟨rfl, rfl⟩

/-- C2: for every BatchNorm instance, regardless of center and scale, the
running_mean and running_var Parameters are created with grad_req 'null'
(frozen) and never appear in the trainable-Parameter enumeration. -/
theorem batchnorm_running_stats_frozen
    (axis : Int) (momentum epsilon : ℚ) (center scale : Bool)
    (bi gi rmi rvi : String) (in_channels : Nat) :
    ((BatchNorm.init axis momentum epsilon center scale bi gi rmi rvi
        in_channels).running_mean.grad_req = GradReq.null)
  ∧ ((BatchNorm.init axis momentum epsilon center scale bi gi rmi rvi
        in_channels).running_var.grad_req = GradReq.null)
  ∧ ((BatchNorm.init axis momentum epsilon center scale bi gi rmi rvi
        in_channels).running_mean ∉
      trainableParams (BatchNorm.init axis momentum epsilon center scale bi gi
        rmi rvi in_channels).params)
  ∧ ((BatchNorm.init axis momentum epsilon center scale bi gi rmi rvi
        in_channels).running_var ∉
      trainableParams (BatchNorm.init axis momentum epsilon center scale bi gi
        rmi rvi in_channels).params) := by
  refine ⟨rfl, rfl, fun h => ?_, fun h => ?_⟩ <;>
  · simp [trainableParams, BatchNorm.init, List.mem_filter] at h
    exact absurd h (by decide)

/-- C3 counterexample: constructing Dropout with rate 2, which lies outside
[0, 1], succeeds and stores the rate — there is no construction-time
validation in the constructor. -/
theorem dropout_invalid_rate_constructs :
    (1 : ℚ) < 2 ∧ Dropout.init 2 = Except.ok { _rate := 2 } :=
  ⟨by norm_num, rfl⟩

/-- C3 amended: Dropout construction performs no rate validation — it
succeeds for every rate (inside or outside [0, 1]) and stores that rate,
which the forward then passes as the p argument of F.Dropout. -/
theorem dropout_init_stores_rate (rate : ℚ) :
    (Dropout.init rate = Except.ok { _rate := rate })
  ∧ (∀ (F : OpNamespace) (x : Tensor),
      Dropout.hybrid_forward F { _rate := rate } x = F.Dropout x rate) :=
  ⟨rfl, fun F x => rfl⟩

/-- C4: the source computes `fix_gamma = not center` in `self._kwargs`, so
the center flag — not the scale flag — controls whether gamma is fixed in
the forward call: with center=False, scale=True gamma is fixed although its
grad_req is 'write' (trainable), and with center=True, scale=False gamma is
not fixed although scale asked for it to be unused. -/
theorem batchnorm_fix_gamma_tracks_center :
    ((BatchNorm.init 1 (9/10) (1/1000) false true "zeros" "ones" "zeros"
        "ones" 0)._kwargs.fix_gamma = true)
  ∧ ((BatchNorm.init 1 (9/10) (1/1000) false true "zeros" "ones" "zeros"
        "ones" 0).gamma.grad_req = GradReq.write)
  ∧ ((BatchNorm.init 1 (9/10) (1/1000) true false "zeros" "ones" "zeros"
        "ones" 0)._kwargs.fix_gamma = false)
  ∧ ((BatchNorm.init 1 (9/10) (1/1000) true false "zeros" "ones" "zeros"
        "ones" 0).gamma.grad_req = GradReq.null) :=
  ⟨rfl, rfl, rfl, rfl⟩

/-- C5: Dense constructed with unknown in_units (the 0 sentinel) registers a
weight Parameter of declared shape (units, 0) with deferred initialization
allowed, and the unknown dimension is resolved from the input's last
dimension on the first call: an input of shape (batch, feats) resolves the
weight shape to (units, feats) — in particular (4, 7) gives (units, 7). -/
theorem dense_deferred_in_units (units : Nat) (activation : Option String)
    (use_bias : Bool) (wi bi : String) :
    ((Dense.init units activation use_bias wi bi 0).weight.shape = [units, 0])
  ∧ ((Dense.init units activation use_bias wi bi 0).weight.allow_deferred_init
       = true)
  ∧ (∀ batch feats : Nat,
      (Dense.init units activation use_bias wi bi 0).resolveWeightShape
        [batch, feats] = [units, feats]) := by
  refine ⟨rfl, rfl, fun batch feats => ?_⟩
  simp [Dense.init, Dense.resolveWeightShape]

/-- C8 counterexample: Embedding constructed with input_dim = 0 — the
spec's unknown-dimension sentinel — creates its weight with a 0 dimension
and allow_deferred_init = true, so the Parameter is deferral-marked,
refuting "not shape-deferred for every choice of input_dim and
output_dim". -/
theorem embedding_weight_deferred_at_zero :
    ((Embedding.init 0 2 "float32" "uniform").weight.shape = [0, 2])
  ∧ ((Embedding.init 0 2 "float32" "uniform").weight.isDeferred = true) :=
  ⟨rfl, rfl⟩

/-- C8 amended: for every positive input_dim and output_dim, Embedding's
weight is created with the fully specified shape (input_dim, output_dim) and
is not deferral-marked — no dimension can be resolved from a later input —
even though construction passes allow_deferred_init = true. -/
theorem embedding_weight_not_deferred (input_dim output_dim : Nat)
    (dtype wi : String) (h1 : 0 < input_dim) (h2 : 0 < output_dim) :
    ((Embedding.init input_dim output_dim dtype wi).weight.shape
       = [input_dim, output_dim])
  ∧ ((Embedding.init input_dim output_dim dtype wi).weight.isDeferred = false)
  ∧ ((Embedding.init input_dim output_dim dtype wi).weight.allow_deferred_init
       = true) := by
  refine ⟨rfl, ?_, rfl⟩
  cases input_dim with
  | zero => exact absurd h1 (lt_irrefl 0)
  | succ i =>
    cases output_dim with
    | zero => exact absurd h2 (lt_irrefl 0)
    | succ o => rfl

/-- C8 amended, witness: the amended statement at input_dim = 3,
output_dim = 2. -/
theorem embedding_weight_not_deferred_witness :
    ((Embedding.init 3 2 "float32" "uniform").weight.shape = [3, 2])
  ∧ ((Embedding.init 3 2 "float32" "uniform").weight.isDeferred = false)
  ∧ ((Embedding.init 3 2 "float32" "uniform").weight.allow_deferred_init
       = true) :=
  embedding_weight_not_deferred 3 2 "float32" "uniform" (by decide) (by decide)

/-- C10: invoking forward or hybrid_forward on any layer defined in the file
leaves every attribute of the layer unchanged — children list, configuration
fields and registered Parameter references are identical before and after
the call, for every input. -/
theorem forward_frame_invariance (F : OpNamespace)
    (s : Sequential) (hs : HybridSequential) (d : Dense) (a : Activation)
    (dp : Dropout) (bn : BatchNorm) (l : LeakyReLU) (e : Embedding)
    (fl : Flatten) (x weight gamma beta running_mean running_var : Tensor)
    (bias : Option Tensor) :
    ((Sequential.forwardS s x).1._children = s._children)
  ∧ ((HybridSequential.forwardS F hs x).1._children = hs._children)
  ∧ ((Dense.forwardS F d x weight bias).1._units = d._units)
  ∧ ((Dense.forwardS F d x weight bias).1._in_units = d._in_units)
  ∧ ((Dense.forwardS F d x weight bias).1.weight = d.weight)
  ∧ ((Dense.forwardS F d x weight bias).1.bias = d.bias)
  ∧ ((Dense.forwardS F d x weight bias).1.act = d.act)
  ∧ ((Activation.forwardS F a x).1._act_type = a._act_type)
  ∧ ((Dropout.forwardS F dp x).1._rate = dp._rate)
  ∧ ((BatchNorm.forwardS F bn x gamma beta running_mean running_var).1._kwargs
       = bn._kwargs)
  ∧ ((BatchNorm.forwardS F bn x gamma beta running_mean running_var).1.gamma
       = bn.gamma)
  ∧ ((BatchNorm.forwardS F bn x gamma beta running_mean running_var).1.beta
       = bn.beta)
  ∧ ((BatchNorm.forwardS F bn x gamma beta running_mean
       running_var).1.running_mean = bn.running_mean)
  ∧ ((BatchNorm.forwardS F bn x gamma beta running_mean
       running_var).1.running_var = bn.running_var)
  ∧ ((BatchNorm.forwardS F bn x gamma beta running_mean running_var).1.params
       = bn.params)
  ∧ ((LeakyReLU.forwardS F l x).1._alpha = l._alpha)
  ∧ ((Embedding.forwardS F e x weight).1._kwargs = e._kwargs)
  ∧ ((Embedding.forwardS F e x weight).1.weight = e.weight)
  ∧ ((Flatten.forwardS F fl x).1 = fl) :=
  ⟨rfl, rfl, rfl, rfl, rfl, rfl, rfl, rfl, rfl, rfl, rfl, rfl, rfl, rfl, rfl,
   rfl, rfl, rfl, rfl⟩

end GluonNN
